import Mathlib

/-!
Verification of the remix-auth-openauth strategy (src/index.ts): its flow
orchestrator `authenticate`, the `refreshToken` pass-through, and the
cookie-backed pending-state store it drives. The store (lib/store.ts) and
the redirect helper (lib/redirect.ts) are not part of the sources, so they
are modelled from the specification (sections 3, 4.2 and 4.3); the
orchestrator itself is translated from src/index.ts.
-/

namespace OpenAuth

/-- Query or form parameters: an ordered list of key–value pairs, as in
URLSearchParams. -/
abbrev Params := List (String × String)

/-- URLSearchParams.get: the value of the first pair with the given key,
or none when the key is absent. -/
def getParam (ps : Params) (name : String) : Option String :=
  (ps.find? (fun p => p.1 == name)).map (fun p => p.2)

/-- Drop every pair with the given key. -/
def removeParam (ps : Params) (name : String) : Params :=
  ps.filter (fun p => p.1 != name)

/-- URLSearchParams.set: replace the value of the first pair with the given
key and drop later pairs with that key; append the pair when the key is
absent. -/
def setParam : Params → String → String → Params
  | [], n, v => [(n, v)]
  | p :: ps, n, v =>
    if p.1 == n then (n, v) :: removeParam ps n else p :: setParam ps n v

/-- JavaScript truthiness of an optional string query value: an absent
value and the empty string are falsy, everything else is truthy. -/
def truthy : Option String → Bool
  | none => false
  | some s => s != ""

/-- A URL split into everything before the query string and its search
parameters. -/
structure Url where
  base : String
  params : Params
deriving DecidableEq

/-- An inbound HTTP request: its URL search parameters and the parsed
Cookie header, as pairs of cookie name and raw cookie value. -/
structure Request where
  query : Params
  cookieHeader : List (String × String)
deriving DecidableEq

/-- Cookie.get: the raw value of the first cookie with the given name. -/
def getCookie (req : Request) (name : String) : Option String :=
  (req.cookieHeader.find? (fun c => c.1 == name)).map (fun c => c.2)

/-- Modelled from the spec: the store serialization (section 4.2,
lib/store.ts is not in the sources) writes entries URLSearchParams-style,
so the two structural characters and the escape itself are escaped
per character. -/
def encChar (c : Char) : List Char :=
  if c = '%' then ['%', '2', '5']
  else if c = '&' then ['%', '2', '6']
  else if c = '=' then ['%', '3', 'D']
  else [c]

/-- Escape every character of a string for the store wire format. -/
def encStr (s : List Char) : List Char :=
  s.flatMap encChar

/-- Undo `encStr`: decode the three escape sequences, leaving everything
else unchanged (total, tolerant of malformed input). -/
def decStr : List Char → List Char
  | [] => []
  | [c] => [c]
  | [c, d] => [c, d]
  | c :: d :: e :: rest =>
    if c = '%' ∧ d = '2' ∧ e = '5' then '%' :: decStr rest
    else if c = '%' ∧ d = '2' ∧ e = '6' then '&' :: decStr rest
    else if c = '%' ∧ d = '3' ∧ e = 'D' then '=' :: decStr rest
    else c :: decStr (d :: e :: rest)

/-- Encoding of one store entry: escaped state, an equals sign, escaped
verifier. -/
def encPair (p : String × String) : List Char :=
  encStr p.1.data ++ '=' :: encStr p.2.data

/-- Modelled from the spec: serialize (section 4.2) of the snapshot —
entries joined by ampersands into one cookie value. -/
def serializeEntries (l : List (String × String)) : String :=
  String.mk (List.intercalate ['&'] (l.map encPair))

/-- Split a piece at its first equals sign: the key characters and, when
an equals sign occurs, the characters after it. -/
def splitEq : List Char → List Char × Option (List Char)
  | [] => ([], none)
  | c :: rest =>
    if c = '=' then ([], some rest)
    else
      let p := splitEq rest
      (c :: p.1, p.2)

/-- Decode one ampersand-separated piece into a state–verifier pair: the
part before the first equals sign is the state, the part after it the
verifier (empty when no equals sign occurs). -/
def decodePiece (piece : List Char) : String × String :=
  let p := splitEq piece
  match p.2 with
  | some v => (String.mk (decStr p.1), String.mk (decStr v))
  | none => (String.mk (decStr p.1), "")

/-- Modelled from the spec: fromCookie parsing (section 4.2), tolerant of
missing or malformed input (an empty value yields the empty snapshot,
nothing fails). -/
def parseEntries (s : String) : List (String × String) :=
  if s == "" then []
  else (s.data.splitOn '&').map decodePiece

/-- Modelled from the spec: the Pending-State Store (lib/store.ts is not
in the sources). A snapshot is a collection of pending authorizations
keyed by state (section 3), here an ordered list of state–verifier
pairs. -/
structure StateStore where
  entries : List (String × String)
deriving DecidableEq

/-- Modelled from the spec: fromCookie (section 4.2) — parse a raw cookie
value, never failing. -/
def StateStore.fromCookie (raw : String) : StateStore :=
  ⟨parseEntries raw⟩

/-- Modelled from the spec: loading the store from a request's cookie of
the given name; an absent cookie yields the empty snapshot. The source
calls this StateStore.fromRequest(request, cookieName); its cookieName
parameter defaults to "oauth2", which callers of this definition pass
explicitly. -/
def StateStore.fromRequest (req : Request) (cookieNameArg : String) : StateStore :=
  match getCookie req cookieNameArg with
  | none => ⟨[]⟩
  | some raw => StateStore.fromCookie raw

/-- Modelled from the spec: contains (section 4.2) — the no-argument form
(none here) reports non-emptiness, the one-argument form reports presence
of the given state. -/
def StateStore.has (s : StateStore) : Option String → Bool
  | none => !s.entries.isEmpty
  | some st => s.entries.any (fun e => e.1 == st)

/-- Modelled from the spec: lookup (section 4.2) — the verifier stored
for a state, or none. -/
def StateStore.get (s : StateStore) (st : String) : Option String :=
  (s.entries.find? (fun e => e.1 == st)).map (fun e => e.2)

/-- Modelled from the spec: insert (section 4.2) — add the pair on top of
the snapshot already loaded from the request, keeping states unique
within the snapshot (section 3). -/
def StateStore.set (s : StateStore) (st verifier : String) : StateStore :=
  ⟨setParam s.entries st verifier⟩

/-- Modelled from the spec: serialize (section 4.2) — the snapshot as one
cookie value. -/
def StateStore.serialize (s : StateStore) : String :=
  serializeEntries s.entries

/-- A Set-Cookie directive, restricted to the envelope attributes of
section 3. -/
structure SetCookie where
  name : String
  value : String
  httpOnly : Bool
  path : String
  sameSite : String
  maxAge : Nat
deriving DecidableEq

/-- Modelled from the spec: toSetCookie — the CookieEnvelope of section 3
with Path=/, SameSite=Lax, HttpOnly, Max-Age 300 and the serialized
snapshot as value, under the given cookie name. -/
def StateStore.toSetCookie (s : StateStore) (cookieNameArg : String) : SetCookie :=
  { name := cookieNameArg, value := s.serialize, httpOnly := true,
    path := "/", sameSite := "Lax", maxAge := 300 }

/-- An opaque error value produced by the external Token Client. -/
structure ClientErr where
  tag : String
deriving DecidableEq

/-- The tokens produced by the Token Client: access and refresh bearer
strings. -/
structure Tokens where
  access : String
  refresh : String
deriving DecidableEq

/-- A PKCE challenge: the fresh state token and code verifier. -/
structure Challenge where
  state : String
  verifier : String
deriving DecidableEq

/-- Result of the Token Client's authorize call (section 6 collaborator
contract): a challenge and the authorization URL. -/
structure AuthorizeResult where
  challenge : Challenge
  url : Url
deriving DecidableEq

/-- Result of the Token Client's exchange and refresh calls: possibly an
err value and possibly tokens, each checked by truthiness in the
source. -/
structure ClientResult where
  err : Option ClientErr
  tokens : Option Tokens
deriving DecidableEq

/-- The external Token Client collaborator. Each authenticate or
refreshToken invocation awaits one client call, so the client is modelled
by the results those calls produce: the authorize result, the exchange
result as a function of (code, redirectUri, verifier), and the refresh
result as a function of (refresh, access). -/
structure Client where
  authorizeResult : AuthorizeResult
  exchangeResult : String → String → String → ClientResult
  refreshResult : String → Option String → ClientResult

/-- The failure taxonomy (section 7): the provider error built from
callback query parameters, the four callback validation failures, the
pass-through of a Token Client err value from exchange or refresh, and
the `No tokens returned` error of refreshToken. The tokenExchange and
refreshFailed constructors only tag which call produced the propagated
err value, which they carry unmodified. -/
inductive AuthError where
  | provider (code : String) (description uri state : Option String)
  | missingState
  | missingStore
  | stateMismatch
  | missingVerifier
  | tokenExchange (e : ClientErr)
  | refreshFailed (e : ClientErr)
  | noTokensReturned
deriving DecidableEq

/-- Modelled from the spec: the Exit-Redirect Signal (lib/redirect.ts is
not in the sources) — status 302 with the Location URL and the Set-Cookie
header attached to it (sections 4.3 and 6). -/
structure RedirectResponse where
  status : Nat
  location : Url
  setCookie : SetCookie
deriving DecidableEq

/-- The three outcomes of authenticate (section 7): a resolved user, a
raised redirect signal, or a raised error. -/
inductive Outcome (U : Type) where
  | success (user : U)
  | redirect (r : RedirectResponse)
  | failure (e : AuthError)
deriving DecidableEq

/-- Whether an outcome is a raised error. -/
def Outcome.isFailure {U : Type} : Outcome U → Bool
  | Outcome.failure _ => true
  | _ => false

/-- The cookie constructor option (src/index.ts): a plain cookie name
string, or an object form whose name field names the cookie (its other
Set-Cookie attributes are not modelled; the envelope of section 3 fixes
them). -/
inductive CookieOpt where
  | str (s : String)
  | obj (name : String)
deriving DecidableEq

/-- ConstructorOptions of the strategy (src/index.ts): redirect URI,
client id, issuer, optional provider and optional cookie option. -/
structure Options where
  redirectUri : String
  clientId : String
  issuer : String
  provider : Option String
  cookie : Option CookieOpt
deriving DecidableEq

/-- The cookieName getter (src/index.ts lines 34–39): a string cookie
option is used unless it is empty, the object form's name field is used
even when empty (nullish coalescing, not truthiness), and otherwise the
name is "oauth2". -/
def cookieName (o : Options) : String :=
  match o.cookie with
  | some (CookieOpt.str s) => if s == "" then "oauth2" else s
  | some (CookieOpt.obj n) => n
  | none => "oauth2"

/-- VerifyOptions passed to the caller-supplied verify function
(src/index.ts): the request, the client handle and the tokens field of
the exchange result. -/
structure VerifyOptions where
  request : Request
  client : Client
  tokens : Option Tokens

/-- createAuthorizationURL (src/index.ts lines 151–161): ask the client
to authorize, then set the state query parameter of the returned URL to
the challenge state; yields the challenge and the URL. -/
def createAuthorizationURL (client : Client) : Challenge × Url :=
  let result := client.authorizeResult
  let url : Url :=
    { base := result.url.base,
      params := setParam result.url.params "state" result.challenge.state }
  (result.challenge, url)

/-- authorizationParams (src/index.ts lines 176–181): the base class
returns a copy of the given search parameters — the identity on their
contents. -/
def authorizationParams (params : Params) (request : Request) : Params :=
  params

/-- authenticate (src/index.ts lines 46–114), with the verify invocations
it makes logged alongside the outcome. A truthy error parameter raises
the provider error; a falsy code starts the flow by inserting the fresh
challenge into the store loaded under the configured cookie name and
raising a redirect that carries the updated store cookie; otherwise the
callback is validated against the store loaded under the default cookie
name "oauth2" (the source calls StateStore.fromRequest(request) with no
name), the code is exchanged, and verify's value is the result. -/
def authenticate {U : Type} (o : Options) (client : Client)
    (verify : VerifyOptions → U) (request : Request) :
    Outcome U × List VerifyOptions :=
  let code := getParam request.query "code"
  let stateUrl := getParam request.query "state"
  let error := getParam request.query "error"
  if truthy error then
    (Outcome.failure (AuthError.provider (error.getD "")
      (getParam request.query "error_description")
      (getParam request.query "error_uri") stateUrl), [])
  else if !truthy code then
    let cu := createAuthorizationURL client
    let url : Url :=
      { base := cu.2.base,
        params := authorizationParams cu.2.params request }
    let store := StateStore.fromRequest request (cookieName o)
    let store2 := store.set cu.1.state cu.1.verifier
    let setCookie := store2.toSetCookie (cookieName o)
    (Outcome.redirect { status := 302, location := url, setCookie := setCookie }, [])
  else
    let store := StateStore.fromRequest request "oauth2"
    if !truthy stateUrl then (Outcome.failure AuthError.missingState, [])
    else if !(store.has none) then (Outcome.failure AuthError.missingStore, [])
    else if !(store.has stateUrl) then (Outcome.failure AuthError.stateMismatch, [])
    else
      let codeVerifier := store.get (stateUrl.getD "")
      if !truthy codeVerifier then (Outcome.failure AuthError.missingVerifier, [])
      else
        let result := client.exchangeResult (code.getD "") o.redirectUri (codeVerifier.getD "")
        match result.err with
        | some e => (Outcome.failure (AuthError.tokenExchange e), [])
        | none =>
          let ctx : VerifyOptions :=
            { request := request, client := client, tokens := result.tokens }
          (Outcome.success (verify ctx), [ctx])

/-- refreshToken (src/index.ts lines 123–134): propagate a client err;
when no tokens come back, fall back to the given pair when the access
token is truthy and otherwise fail with `No tokens returned`; else return
the client's tokens. -/
def refreshToken (client : Client) (refresh : String) (access : Option String) :
    Except AuthError Tokens :=
  let result := client.refreshResult refresh access
  match result.err with
  | some e => Except.error (AuthError.refreshFailed e)
  | none =>
    match result.tokens, truthy access with
    | none, true => Except.ok { access := access.getD "", refresh := refresh }
    | none, false => Except.error AuthError.noTokensReturned
    | some t, _ => Except.ok t

/-! Lemmas about the wire format: the escape map avoids the two structural
characters, decoding undoes encoding, and parsing undoes serialization. -/

theorem encChar_no_sep {c d : Char} (hd : d ∈ encChar c) : d ≠ '&' ∧ d ≠ '=' := by
  unfold encChar at hd
  split_ifs at hd with h1 h2 h3
  · simp only [List.mem_cons, List.not_mem_nil, or_false] at hd
    rcases hd with h | h | h <;> subst h <;> exact ⟨by decide, by decide⟩
  · simp only [List.mem_cons, List.not_mem_nil, or_false] at hd
    rcases hd with h | h | h <;> subst h <;> exact ⟨by decide, by decide⟩
  · simp only [List.mem_cons, List.not_mem_nil, or_false] at hd
    rcases hd with h | h | h <;> subst h <;> exact ⟨by decide, by decide⟩
  · simp only [List.mem_cons, List.not_mem_nil, or_false] at hd
    subst hd
    exact ⟨h2, h3⟩

theorem encStr_no_sep {s : List Char} {d : Char} (hd : d ∈ encStr s) :
    d ≠ '&' ∧ d ≠ '=' := by
  unfold encStr at hd
  rcases List.mem_flatMap.mp hd with ⟨c, _, hc⟩
  exact encChar_no_sep hc

theorem decStr_cons_ne (c : Char) (t : List Char) (h : c ≠ '%') :
    decStr (c :: t) = c :: decStr t := by
  match t with
  | [] => rfl
  | [d] => rfl
  | d :: e :: r => simp [decStr, h]

theorem decStr_encStr (s : List Char) : decStr (encStr s) = s := by
  induction s with
  | nil => simp [encStr, decStr]
  | cons c rest ih =>
    have hstep : encStr (c :: rest) = encChar c ++ encStr rest := by
      simp [encStr]
    rw [hstep]
    by_cases h1 : c = '%'
    · subst h1
      simp [encChar, decStr, ih]
    · by_cases h2 : c = '&'
      · subst h2
        simp [encChar, decStr, ih]
      · by_cases h3 : c = '='
        · subst h3
          simp [encChar, decStr, ih]
        · rw [show encChar c = [c] by simp [encChar, h1, h2, h3]]
          rw [List.singleton_append, decStr_cons_ne c _ h1, ih]

theorem splitEq_append {a b : List Char} (ha : '=' ∉ a) :
    splitEq (a ++ '=' :: b) = (a, some b) := by
  induction a with
  | nil => simp [splitEq]
  | cons c rest ih =>
    have hc : ¬c = '=' := by
      intro h
      exact ha (by rw [h]; exact List.mem_cons_self _ _)
    have hrest : '=' ∉ rest := fun h => ha (List.mem_cons_of_mem c h)
    simp [splitEq, hc, ih hrest]

theorem amp_not_mem_encPair (p : String × String) : '&' ∉ encPair p := by
  intro hd
  unfold encPair at hd
  rcases List.mem_append.mp hd with h | h
  · exact (encStr_no_sep h).1 rfl
  · rcases List.mem_cons.mp h with h2 | h2
    · exact absurd h2 (by decide)
    · exact (encStr_no_sep h2).1 rfl

theorem encPair_ne_nil (p : String × String) : encPair p ≠ [] := by
  unfold encPair
  intro h
  exact List.cons_ne_nil '=' _ (List.append_eq_nil.mp h).2

theorem decodePiece_encPair (q : String × String) : decodePiece (encPair q) = q := by
  have h1 : '=' ∉ encStr q.1.data := fun h => (encStr_no_sep h).2 rfl
  have h2 : splitEq (encPair q) = (encStr q.1.data, some (encStr q.2.data)) := by
    unfold encPair
    exact splitEq_append h1
  simp only [decodePiece, h2, decStr_encStr]

theorem parseEntries_serializeEntries (l : List (String × String)) :
    parseEntries (serializeEntries l) = l := by
  cases l with
  | nil => rfl
  | cons p rest =>
    have hpieces : ∀ piece ∈ (p :: rest).map encPair, '&' ∉ piece := by
      intro piece hp
      rcases List.mem_map.mp hp with ⟨q, _, rfl⟩
      exact amp_not_mem_encPair q
    have hne : (p :: rest).map encPair ≠ [] := by simp
    have hsplit : (List.intercalate ['&'] ((p :: rest).map encPair)).splitOn '&'
        = (p :: rest).map encPair :=
      List.splitOn_intercalate ((p :: rest).map encPair) '&' hpieces hne
    have hdata : (serializeEntries (p :: rest)).data
        = List.intercalate ['&'] ((p :: rest).map encPair) := rfl
    have hnonempty : serializeEntries (p :: rest) ≠ "" := by
      intro h
      have h0 : List.intercalate ['&'] ((p :: rest).map encPair) = [] := by
        rw [← hdata, h]
      rw [h0] at hsplit
      have hsplit2 : ([[]] : List (List Char)) = (p :: rest).map encPair := hsplit
      rw [List.map_cons] at hsplit2
      exact encPair_ne_nil p (List.cons.inj hsplit2).1.symm
    have hcond : (serializeEntries (p :: rest) == "") = false := by
      exact beq_eq_false_iff_ne.mpr hnonempty
    unfold parseEntries
    rw [hcond]
    simp only [Bool.false_eq_true, if_false, hdata, hsplit, List.map_map]
    have : decodePiece ∘ encPair = fun q => decodePiece (encPair q) := rfl
    rw [this]
    simp only [decodePiece_encPair]
    exact List.map_id _

/-! Lemmas about parameter maps and the store. -/

theorem getParam_setParam (ps : Params) (n v : String) :
    getParam (setParam ps n v) n = some v := by
  induction ps with
  | nil => simp [setParam, getParam]
  | cons p rest ih =>
    by_cases h : p.1 == n
    · simp [setParam, h, getParam]
    · have hf : (p.1 == n) = false := by simpa using h
      simp only [setParam, h, Bool.false_eq_true, if_false]
      unfold getParam
      rw [List.find?_cons_of_neg _ (by simp [hf])]
      exact ih

theorem mem_setParam_self (ps : Params) (n v : String) :
    (n, v) ∈ setParam ps n v := by
  induction ps with
  | nil => simp [setParam]
  | cons p rest ih =>
    by_cases h : p.1 == n
    · simp [setParam, h]
    · simp only [setParam, h, Bool.false_eq_true, if_false]
      exact List.mem_cons_of_mem p ih

theorem mem_setParam_of_mem {ps : Params} {k w n v : String} (hk : k ≠ n)
    (hm : (k, w) ∈ ps) : (k, w) ∈ setParam ps n v := by
  induction ps with
  | nil => cases hm
  | cons p rest ih =>
    rcases List.mem_cons.mp hm with he | hm2
    · by_cases h : p.1 == n
      · exfalso
        apply hk
        rw [← he] at h
        exact eq_of_beq h
      · simp only [setParam, h, Bool.false_eq_true, if_false]
        exact List.mem_cons.mpr (Or.inl he)
    · by_cases h : p.1 == n
      · simp only [setParam, h, if_true]
        apply List.mem_cons_of_mem
        unfold removeParam
        exact List.mem_filter.mpr ⟨hm2, by simp [hk]⟩
      · simp only [setParam, h, Bool.false_eq_true, if_false]
        exact List.mem_cons_of_mem p (ih hm2)

theorem mem_getParam {ps : Params} {n v : String} (h : getParam ps n = some v) :
    (n, v) ∈ ps := by
  unfold getParam at h
  rcases Option.map_eq_some'.mp h with ⟨p, hfind, hv⟩
  have hmem := List.mem_of_find?_eq_some hfind
  have hkey := List.find?_some hfind
  rcases p with ⟨a, b⟩
  simp only [beq_iff_eq] at hkey
  simp only at hv
  subst hkey
  subst hv
  exact hmem

theorem StateStore.has_set (s : StateStore) (st v : String) :
    (s.set st v).has (some st) = true := by
  simp only [StateStore.set, StateStore.has]
  rw [List.any_eq_true]
  exact ⟨(st, v), mem_setParam_self s.entries st v, by simp⟩

theorem StateStore.has_none_of_has_some {s : StateStore} {st : String}
    (h : s.has (some st) = true) : s.has none = true := by
  simp only [StateStore.has] at h ⊢
  cases hs : s.entries with
  | nil => rw [hs] at h; simp at h
  | cons p rest => simp [hs]

theorem StateStore.fromCookie_serialize (s : StateStore) :
    StateStore.fromCookie s.serialize = s := by
  unfold StateStore.fromCookie StateStore.serialize
  rw [parseEntries_serializeEntries]

theorem StateStore.mem_of_mem_set {s : StateStore} {k w st v : String} (hk : k ≠ st)
    (hm : (k, w) ∈ s.entries) : (k, w) ∈ (s.set st v).entries :=
  mem_setParam_of_mem hk hm

theorem StateStore.fromRequest_no_cookie {req : Request} {name : String}
    (h : getCookie req name = none) : StateStore.fromRequest req name = ⟨[]⟩ := by
  unfold StateStore.fromRequest
  rw [h]

/-! Path lemmas for authenticate: one computation per branch of the
orchestrator. -/

theorem authenticate_provider {U : Type} (o : Options) (client : Client)
    (verify : VerifyOptions → U) (request : Request) (ecode : String)
    (herr : getParam request.query "error" = some ecode) (hne : ecode ≠ "") :
    authenticate o client verify request =
      (Outcome.failure (AuthError.provider ecode
        (getParam request.query "error_description")
        (getParam request.query "error_uri")
        (getParam request.query "state")), []) := by
  unfold authenticate
  rw [herr]
  simp [truthy, hne]

theorem authenticate_flow_start {U : Type} (o : Options) (client : Client)
    (verify : VerifyOptions → U) (request : Request)
    (herr : truthy (getParam request.query "error") = false)
    (hcode : truthy (getParam request.query "code") = false) :
    authenticate o client verify request =
      (Outcome.redirect
        { status := 302,
          location :=
            { base := client.authorizeResult.url.base,
              params := setParam client.authorizeResult.url.params "state"
                client.authorizeResult.challenge.state },
          setCookie :=
            ((StateStore.fromRequest request (cookieName o)).set
              client.authorizeResult.challenge.state
              client.authorizeResult.challenge.verifier).toSetCookie (cookieName o) },
       []) := by
  unfold authenticate createAuthorizationURL authorizationParams
  simp [herr, hcode]

theorem authenticate_missing_state {U : Type} (o : Options) (client : Client)
    (verify : VerifyOptions → U) (request : Request)
    (herr : truthy (getParam request.query "error") = false)
    (hcode : truthy (getParam request.query "code") = true)
    (hstate : truthy (getParam request.query "state") = false) :
    authenticate o client verify request = (Outcome.failure AuthError.missingState, []) := by
  unfold authenticate
  simp [herr, hcode, hstate]

theorem authenticate_missing_store {U : Type} (o : Options) (client : Client)
    (verify : VerifyOptions → U) (request : Request)
    (herr : truthy (getParam request.query "error") = false)
    (hcode : truthy (getParam request.query "code") = true)
    (hstate : truthy (getParam request.query "state") = true)
    (hstore : (StateStore.fromRequest request "oauth2").has none = false) :
    authenticate o client verify request = (Outcome.failure AuthError.missingStore, []) := by
  unfold authenticate
  simp [herr, hcode, hstate, hstore]

theorem authenticate_state_mismatch {U : Type} (o : Options) (client : Client)
    (verify : VerifyOptions → U) (request : Request)
    (herr : truthy (getParam request.query "error") = false)
    (hcode : truthy (getParam request.query "code") = true)
    (hstate : truthy (getParam request.query "state") = true)
    (hstore : (StateStore.fromRequest request "oauth2").has none = true)
    (hmiss : (StateStore.fromRequest request "oauth2").has
      (getParam request.query "state") = false) :
    authenticate o client verify request = (Outcome.failure AuthError.stateMismatch, []) := by
  unfold authenticate
  simp [herr, hcode, hstate, hstore, hmiss]

theorem authenticate_missing_verifier {U : Type} (o : Options) (client : Client)
    (verify : VerifyOptions → U) (request : Request)
    (herr : truthy (getParam request.query "error") = false)
    (hcode : truthy (getParam request.query "code") = true)
    (hstate : truthy (getParam request.query "state") = true)
    (hhas : (StateStore.fromRequest request "oauth2").has
      (getParam request.query "state") = true)
    (hverifier : truthy ((StateStore.fromRequest request "oauth2").get
      ((getParam request.query "state").getD "")) = false) :
    authenticate o client verify request = (Outcome.failure AuthError.missingVerifier, []) := by
  unfold authenticate
  have hstore : (StateStore.fromRequest request "oauth2").has none = true := by
    cases hsu : getParam request.query "state" with
    | none => rw [hsu] at hstate; simp [truthy] at hstate
    | some st =>
      rw [hsu] at hhas
      exact StateStore.has_none_of_has_some hhas
  simp [herr, hcode, hstate, hstore, hhas, hverifier]

theorem authenticate_exchange_err {U : Type} (o : Options) (client : Client)
    (verify : VerifyOptions → U) (request : Request) (code st cv : String) (e : ClientErr)
    (herr : truthy (getParam request.query "error") = false)
    (hcode : getParam request.query "code" = some code) (hc : code ≠ "")
    (hstate : getParam request.query "state" = some st) (hst : st ≠ "")
    (hhas : (StateStore.fromRequest request "oauth2").has (some st) = true)
    (hget : (StateStore.fromRequest request "oauth2").get st = some cv) (hcv : cv ≠ "")
    (hex : (client.exchangeResult code o.redirectUri cv).err = some e) :
    authenticate o client verify request =
      (Outcome.failure (AuthError.tokenExchange e), []) := by
  unfold authenticate
  have hstore := StateStore.has_none_of_has_some hhas
  have htc : truthy (some code) = true := by simp [truthy, hc]
  have hts : truthy (some st) = true := by simp [truthy, hst]
  have htv : truthy (some cv) = true := by simp [truthy, hcv]
  simp [hcode, hstate, herr, htc, hts, hhas, hstore, hget, htv, hex]

theorem authenticate_exchange_ok {U : Type} (o : Options) (client : Client)
    (verify : VerifyOptions → U) (request : Request) (code st cv : String)
    (herr : truthy (getParam request.query "error") = false)
    (hcode : getParam request.query "code" = some code) (hc : code ≠ "")
    (hstate : getParam request.query "state" = some st) (hst : st ≠ "")
    (hhas : (StateStore.fromRequest request "oauth2").has (some st) = true)
    (hget : (StateStore.fromRequest request "oauth2").get st = some cv) (hcv : cv ≠ "")
    (hex : (client.exchangeResult code o.redirectUri cv).err = none) :
    authenticate o client verify request =
      (Outcome.success (verify (VerifyOptions.mk request client
        (client.exchangeResult code o.redirectUri cv).tokens)),
       [VerifyOptions.mk request client (client.exchangeResult code o.redirectUri cv).tokens]) := by
  unfold authenticate
  have hstore := StateStore.has_none_of_has_some hhas
  have htc : truthy (some code) = true := by simp [truthy, hc]
  have hts : truthy (some st) = true := by simp [truthy, hst]
  have htv : truthy (some cv) = true := by simp [truthy, hcv]
  simp [hcode, hstate, herr, htc, hts, hhas, hstore, hget, htv, hex]

/-- The success outcome of a completed callback: verify is invoked once
with the request, the client handle and the exchange result's tokens, and
its value is returned. -/
def successOutcome {U : Type} (client : Client) (verify : VerifyOptions → U)
    (request : Request) (code cv : String) (o : Options) :
    Outcome U × List VerifyOptions :=
  (Outcome.success (verify (VerifyOptions.mk request client
    (client.exchangeResult code o.redirectUri cv).tokens)),
   [VerifyOptions.mk request client (client.exchangeResult code o.redirectUri cv).tokens])

/-! Concrete instances used by counterexamples and witnesses. -/

/-- A concrete configuration with the default cookie option. -/
def exOptions : Options :=
  { redirectUri := "https://example.com/callback", clientId := "client-id",
    issuer := "https://auth.example.com", provider := none, cookie := none }

/-- A concrete configuration whose cookie option names a cookie other
than "oauth2". -/
def exOptionsCustom : Options :=
  { redirectUri := "https://example.com/callback", clientId := "client-id",
    issuer := "https://auth.example.com", provider := none,
    cookie := some (CookieOpt.str "custom") }

/-- A concrete authorization URL meeting the collaborator contract of
section 6. -/
def exUrl : Url :=
  { base := "https://auth.example.com/authorize",
    params := [("client_id", "client-id"),
      ("redirect_uri", "https://example.com/callback"),
      ("response_type", "code"), ("code_challenge", "C1"),
      ("code_challenge_method", "S256")] }

/-- A concrete Token Client: a fixed challenge, successful exchanges, and
refresh results carrying neither err nor tokens. -/
def exClient : Client :=
  { authorizeResult := { challenge := { state := "S1", verifier := "V1" }, url := exUrl },
    exchangeResult := fun _ _ _ =>
      { err := none,
        tokens := some { access := "access-token", refresh := "refresh-token" } },
    refreshResult := fun _ _ => { err := none, tokens := none } }

/-- A concrete verify function resolving to a fixed user. -/
def exVerify : VerifyOptions → String := fun _ => "user-123"

/-- A flow-start request: no query parameters, no cookies. -/
def exLoginReq : Request := { query := [], cookieHeader := [] }

/-- A callback request whose cookie store contains its state. -/
def exCallbackReq : Request :=
  { query := [("code", "ABC"), ("state", "S1")],
    cookieHeader := [("oauth2", serializeEntries [("S1", "V1")])] }

/-- A callback request whose state is not in the (non-empty) cookie
store. -/
def exMismatchReq : Request :=
  { query := [("code", "ABC"), ("state", "S2")],
    cookieHeader := [("oauth2", serializeEntries [("S1", "V1")])] }

/-- A callback request with a code but no state parameter. -/
def exNoStateReq : Request := { query := [("code", "ABC")], cookieHeader := [] }

/-- A callback request whose store cookie sits under the custom name. -/
def exCustomCallbackReq : Request :=
  { query := [("code", "ABC"), ("state", "S1")],
    cookieHeader := [("custom", serializeEntries [("S1", "V1")])] }

/-- A request carrying an error query parameter whose value is empty. -/
def exEmptyErrorReq : Request := { query := [("error", "")], cookieHeader := [] }

/-- A callback request where the provider reports access_denied alongside
a code, with no state. -/
def exProviderErrReq : Request :=
  { query := [("error", "access_denied"), ("code", "ABC")], cookieHeader := [] }

/-- A flow-start request whose cookie already holds a pending entry. -/
def exAccumulateReq : Request :=
  { query := [], cookieHeader := [("oauth2", serializeEntries [("S0", "V0")])] }

/-! The claims. -/

/-- C1: on every flow-start call (no truthy code, no truthy error)
authenticate raises the redirect signal; the state query parameter of the
redirect Location URL equals the challenge state, and that same state is
recoverable from the store parsed back out of the accompanying
Set-Cookie's value. And on every callback (truthy code and state) whose
non-empty store does not contain the callback's state, authenticate fails
with StateMismatchError and returns no user. -/
theorem C1_state_roundtrip_and_mismatch {U : Type} (o : Options) (client : Client)
    (verify : VerifyOptions → U) (req1 req2 : Request) (st : String)
    (herr1 : truthy (getParam req1.query "error") = false)
    (hcode1 : truthy (getParam req1.query "code") = false)
    (herr2 : truthy (getParam req2.query "error") = false)
    (hcode2 : truthy (getParam req2.query "code") = true)
    (hstate2 : getParam req2.query "state" = some st) (hst : st ≠ "")
    (hnonempty : (StateStore.fromRequest req2 "oauth2").has none = true)
    (hmiss : (StateStore.fromRequest req2 "oauth2").has (some st) = false) :
    (∃ r : RedirectResponse,
      authenticate o client verify req1 = (Outcome.redirect r, []) ∧
      getParam r.location.params "state" = some client.authorizeResult.challenge.state ∧
      (StateStore.fromCookie r.setCookie.value).has
        (some client.authorizeResult.challenge.state) = true) ∧
    authenticate o client verify req2 = (Outcome.failure AuthError.stateMismatch, []) := by
  constructor
  · refine ⟨_, authenticate_flow_start o client verify req1 herr1 hcode1, ?_, ?_⟩
    · exact getParam_setParam _ _ _
    · show (StateStore.fromCookie (StateStore.serialize
        ((StateStore.fromRequest req1 (cookieName o)).set
          client.authorizeResult.challenge.state
          client.authorizeResult.challenge.verifier))).has
        (some client.authorizeResult.challenge.state) = true
      rw [StateStore.fromCookie_serialize]
      exact StateStore.has_set _ _ _
  · have hts : truthy (getParam req2.query "state") = true := by
      rw [hstate2]; simp [truthy, hst]
    have hm2 : (StateStore.fromRequest req2 "oauth2").has
        (getParam req2.query "state") = false := by
      rw [hstate2]; exact hmiss
    exact authenticate_state_mismatch o client verify req2 herr2 hcode2 hts hnonempty hm2

/-- Witness for C1: concrete flow start and mismatching concrete
callback. -/
theorem C1_witness :
    (∃ r : RedirectResponse,
      authenticate exOptions exClient exVerify exLoginReq = (Outcome.redirect r, []) ∧
      getParam r.location.params "state" = some exClient.authorizeResult.challenge.state ∧
      (StateStore.fromCookie r.setCookie.value).has
        (some exClient.authorizeResult.challenge.state) = true) ∧
    authenticate exOptions exClient exVerify exMismatchReq =
      (Outcome.failure AuthError.stateMismatch, []) :=
  C1_state_roundtrip_and_mismatch exOptions exClient exVerify exLoginReq exMismatchReq
    "S2" rfl rfl rfl rfl rfl (by decide) (by decide) (by decide)

/-- C2: the callback always loads the pending-state store under the
default cookie name "oauth2" regardless of configuration, so for a
configuration whose cookie option names another cookie, the flow-start
Set-Cookie is written under the configured name while a callback carrying
no "oauth2" cookie fails with MissingStoreError. -/
theorem C2_default_cookie_name_on_callback {U : Type} (o : Options) (client : Client)
    (verify : VerifyOptions → U) (req1 req2 : Request)
    (hname : cookieName o ≠ "oauth2")
    (herr1 : truthy (getParam req1.query "error") = false)
    (hcode1 : truthy (getParam req1.query "code") = false)
    (herr2 : truthy (getParam req2.query "error") = false)
    (hcode2 : truthy (getParam req2.query "code") = true)
    (hstate2 : truthy (getParam req2.query "state") = true)
    (hjar : getCookie req2 "oauth2" = none) :
    (∃ r : RedirectResponse,
      authenticate o client verify req1 = (Outcome.redirect r, []) ∧
      r.setCookie.name = cookieName o) ∧
    authenticate o client verify req2 = (Outcome.failure AuthError.missingStore, []) := by
  constructor
  · exact ⟨_, authenticate_flow_start o client verify req1 herr1 hcode1, rfl⟩
  · have hstore : (StateStore.fromRequest req2 "oauth2").has none = false := by
      rw [StateStore.fromRequest_no_cookie hjar]
      rfl
    exact authenticate_missing_store o client verify req2 herr2 hcode2 hstate2 hstore

/-- Witness for C2: the custom-name configuration writes its cookie under
"custom" on flow start and its callback fails with MissingStoreError. -/
theorem C2_witness :
    (∃ r : RedirectResponse,
      authenticate exOptionsCustom exClient exVerify exLoginReq = (Outcome.redirect r, []) ∧
      r.setCookie.name = cookieName exOptionsCustom) ∧
    authenticate exOptionsCustom exClient exVerify exCustomCallbackReq =
      (Outcome.failure AuthError.missingStore, []) :=
  C2_default_cookie_name_on_callback exOptionsCustom exClient exVerify exLoginReq
    exCustomCallbackReq (by decide) rfl rfl rfl rfl rfl rfl

/-- C3 as stated is false on the code: the callback path performs no
deletion-on-use and emits no cookie mutation, so at this concrete input a
successful callback can be replayed — the second presentation of the same
state and the same cookie is the identical pure invocation, and it
completes the flow again. The second conjunct is the claim instantiated
at this input (a successful first callback forces a second identical one
to fail), negated. -/
theorem C3_counterexample :
    (authenticate exOptions exClient exVerify exCallbackReq).1 = Outcome.success "user-123" ∧
    ¬((authenticate exOptions exClient exVerify exCallbackReq).1 = Outcome.success "user-123" →
      (authenticate exOptions exClient exVerify exCallbackReq).1 ≠
        Outcome.success "user-123") := by
  have h : (authenticate exOptions exClient exVerify exCallbackReq).1 =
      Outcome.success "user-123" := by rfl
  exact ⟨h, fun himp => himp h h⟩

/-- C3 amended: a state token is not single-use in the code: a successful
callback leaves the store untouched (its outcome carries no Set-Cookie),
and a second callback presenting the same state and the same cookie — the
identical invocation, since authenticate holds no server-side state —
completes the flow again and invokes verify a second time. Replay
protection rests solely on cookie expiry, which lies outside the core. -/
theorem C3_replay_completes_again {U : Type} (o : Options) (client : Client)
    (verify : VerifyOptions → U) (request : Request) (code st cv : String)
    (herr : truthy (getParam request.query "error") = false)
    (hcode : getParam request.query "code" = some code) (hc : code ≠ "")
    (hstate : getParam request.query "state" = some st) (hst : st ≠ "")
    (hhas : (StateStore.fromRequest request "oauth2").has (some st) = true)
    (hget : (StateStore.fromRequest request "oauth2").get st = some cv) (hcv : cv ≠ "")
    (hex : (client.exchangeResult code o.redirectUri cv).err = none) :
    authenticate o client verify request = successOutcome client verify request code cv o ∧
    authenticate o client verify request = successOutcome client verify request code cv o := by
  have h : authenticate o client verify request =
      successOutcome client verify request code cv o :=
    authenticate_exchange_ok o client verify request code st cv herr hcode hc hstate hst
      hhas hget hcv hex
  exact ⟨h, h⟩

/-- Witness for the amended C3 at the concrete replayed callback. -/
theorem C3_witness :
    authenticate exOptions exClient exVerify exCallbackReq =
      successOutcome exClient exVerify exCallbackReq "ABC" "V1" exOptions ∧
    authenticate exOptions exClient exVerify exCallbackReq =
      successOutcome exClient exVerify exCallbackReq "ABC" "V1" exOptions :=
  C3_replay_completes_again exOptions exClient exVerify exCallbackReq "ABC" "S1" "V1"
    rfl rfl (by decide) rfl (by decide) (by decide) (by decide) (by decide) rfl

/-- C4: every request without a code parameter (and without an error
parameter) never yields a user: authenticate raises a 302 redirect whose
Location query contains response_type=code, code_challenge_method=S256,
the non-empty code challenge, the configured client identifier and
redirect URI (all supplied by the Token Client per the section 6
contract and preserved by the state insertion), together with a
Set-Cookie for the configured name carrying HttpOnly, Path=/ and
SameSite=Lax. -/
theorem C4_flow_start_redirect {U : Type} (o : Options) (client : Client)
    (verify : VerifyOptions → U) (request : Request) (ch : String)
    (hcode : getParam request.query "code" = none)
    (herr : getParam request.query "error" = none)
    (hrt : ("response_type", "code") ∈ client.authorizeResult.url.params)
    (hccm : ("code_challenge_method", "S256") ∈ client.authorizeResult.url.params)
    (hch : ("code_challenge", ch) ∈ client.authorizeResult.url.params)
    (hchne : ch ≠ "")
    (hcid : ("client_id", o.clientId) ∈ client.authorizeResult.url.params)
    (hru : ("redirect_uri", o.redirectUri) ∈ client.authorizeResult.url.params) :
    ∃ r : RedirectResponse,
      authenticate o client verify request = (Outcome.redirect r, []) ∧
      r.status = 302 ∧
      ("response_type", "code") ∈ r.location.params ∧
      ("code_challenge_method", "S256") ∈ r.location.params ∧
      ("code_challenge", ch) ∈ r.location.params ∧ ch ≠ "" ∧
      ("client_id", o.clientId) ∈ r.location.params ∧
      ("redirect_uri", o.redirectUri) ∈ r.location.params ∧
      r.setCookie.name = cookieName o ∧
      r.setCookie.httpOnly = true ∧
      r.setCookie.path = "/" ∧
      r.setCookie.sameSite = "Lax" := by
  have herr2 : truthy (getParam request.query "error") = false := by rw [herr]; rfl
  have hcode2 : truthy (getParam request.query "code") = false := by rw [hcode]; rfl
  refine ⟨_, authenticate_flow_start o client verify request herr2 hcode2,
    rfl, ?_, ?_, ?_, hchne, ?_, ?_, rfl, rfl, rfl, rfl⟩
  · exact mem_setParam_of_mem (by decide) hrt
  · exact mem_setParam_of_mem (by decide) hccm
  · exact mem_setParam_of_mem (by decide) hch
  · exact mem_setParam_of_mem (by decide) hcid
  · exact mem_setParam_of_mem (by decide) hru

/-- Witness for C4 at the concrete flow-start request. -/
theorem C4_witness :
    ∃ r : RedirectResponse,
      authenticate exOptions exClient exVerify exLoginReq = (Outcome.redirect r, []) ∧
      r.status = 302 ∧
      ("response_type", "code") ∈ r.location.params ∧
      ("code_challenge_method", "S256") ∈ r.location.params ∧
      ("code_challenge", "C1") ∈ r.location.params ∧ "C1" ≠ "" ∧
      ("client_id", exOptions.clientId) ∈ r.location.params ∧
      ("redirect_uri", exOptions.redirectUri) ∈ r.location.params ∧
      r.setCookie.name = cookieName exOptions ∧
      r.setCookie.httpOnly = true ∧
      r.setCookie.path = "/" ∧
      r.setCookie.sameSite = "Lax" :=
  C4_flow_start_redirect exOptions exClient exVerify exLoginReq "C1" rfl rfl
    (by decide) (by decide) (by decide) (by decide) (by decide) (by decide)

/-- C5: on flow completion (truthy code, no truthy error) the failure
checks run in order: falsy state fails with MissingStateError; else an
empty store fails with MissingStoreError; else a store not containing the
callback state fails with StateMismatchError; else a falsy verifier slot
fails with MissingVerifierError — and no user is returned in any of these
cases (the outcome is a failure and verify is never invoked). -/
theorem C5_callback_failure_order {U : Type} (o : Options) (client : Client)
    (verify : VerifyOptions → U) (request : Request)
    (hcode : truthy (getParam request.query "code") = true)
    (herr : truthy (getParam request.query "error") = false) :
    (truthy (getParam request.query "state") = false →
      authenticate o client verify request = (Outcome.failure AuthError.missingState, [])) ∧
    (truthy (getParam request.query "state") = true →
      (StateStore.fromRequest request "oauth2").has none = false →
      authenticate o client verify request = (Outcome.failure AuthError.missingStore, [])) ∧
    (truthy (getParam request.query "state") = true →
      (StateStore.fromRequest request "oauth2").has none = true →
      (StateStore.fromRequest request "oauth2").has (getParam request.query "state") = false →
      authenticate o client verify request = (Outcome.failure AuthError.stateMismatch, [])) ∧
    (truthy (getParam request.query "state") = true →
      (StateStore.fromRequest request "oauth2").has (getParam request.query "state") = true →
      truthy ((StateStore.fromRequest request "oauth2").get
        ((getParam request.query "state").getD "")) = false →
      authenticate o client verify request = (Outcome.failure AuthError.missingVerifier, [])) :=
  ⟨fun h => authenticate_missing_state o client verify request herr hcode h,
   fun h1 h2 => authenticate_missing_store o client verify request herr hcode h1 h2,
   fun h1 h2 h3 => authenticate_state_mismatch o client verify request herr hcode h1 h2 h3,
   fun h1 h2 h3 => authenticate_missing_verifier o client verify request herr hcode h1 h2 h3⟩

/-- Witness for C5: a callback without a state parameter fails with
MissingStateError. -/
theorem C5_witness :
    authenticate exOptions exClient exVerify exNoStateReq =
      (Outcome.failure AuthError.missingState, []) :=
  (C5_callback_failure_order exOptions exClient exVerify exNoStateReq rfl rfl).1 rfl

/-- C6 as stated is false on the code: a request whose URL has an error
query parameter with an empty value (present but falsy, as in a URL
ending in a bare error=) does not fail at all — the source's truthiness
check skips the provider-error branch and the flow starts with a
redirect. -/
theorem C6_counterexample :
    Outcome.isFailure (authenticate exOptions exClient exVerify exEmptyErrorReq).1 = false := by
  rfl

/-- C6 amended: for every request whose URL has a non-empty error query
parameter, authenticate fails with a ProviderError carrying that error
code plus the error_description, error_uri and state parameters (each
none when absent) — regardless of whether code is present, since the
error check precedes all other flow handling. -/
theorem C6_provider_error_precedence {U : Type} (o : Options) (client : Client)
    (verify : VerifyOptions → U) (request : Request) (ecode : String)
    (herr : getParam request.query "error" = some ecode) (hne : ecode ≠ "") :
    authenticate o client verify request =
      (Outcome.failure (AuthError.provider ecode
        (getParam request.query "error_description")
        (getParam request.query "error_uri")
        (getParam request.query "state")), []) :=
  authenticate_provider o client verify request ecode herr hne

/-- Witness for the amended C6: access_denied with a code present and no
state still raises the provider error. -/
theorem C6_witness :
    authenticate exOptions exClient exVerify exProviderErrReq =
      (Outcome.failure (AuthError.provider "access_denied" none none none), []) :=
  C6_provider_error_precedence exOptions exClient exVerify exProviderErrReq
    "access_denied" rfl (by decide)

/-- C7: on flow completion reaching the exchange, an err result makes
authenticate raise exactly that err value (tagged tokenExchange and
otherwise unmodified) with verify never invoked; a successful exchange
makes authenticate invoke verify exactly once with the context of
request, client and tokens, returning verify's value. -/
theorem C7_exchange_result_handling {U : Type} (o : Options) (client : Client)
    (verify : VerifyOptions → U) (request : Request) (code st cv : String)
    (herr : truthy (getParam request.query "error") = false)
    (hcode : getParam request.query "code" = some code) (hc : code ≠ "")
    (hstate : getParam request.query "state" = some st) (hst : st ≠ "")
    (hhas : (StateStore.fromRequest request "oauth2").has (some st) = true)
    (hget : (StateStore.fromRequest request "oauth2").get st = some cv) (hcv : cv ≠ "") :
    (∀ e : ClientErr, (client.exchangeResult code o.redirectUri cv).err = some e →
      authenticate o client verify request =
        (Outcome.failure (AuthError.tokenExchange e), [])) ∧
    ((client.exchangeResult code o.redirectUri cv).err = none →
      authenticate o client verify request =
        successOutcome client verify request code cv o) :=
  ⟨fun e hex => authenticate_exchange_err o client verify request code st cv e
      herr hcode hc hstate hst hhas hget hcv hex,
   fun hex => authenticate_exchange_ok o client verify request code st cv
      herr hcode hc hstate hst hhas hget hcv hex⟩

/-- Witness for C7: the concrete callback succeeds, invoking verify once
with the exchanged tokens and returning its value. -/
theorem C7_witness :
    authenticate exOptions exClient exVerify exCallbackReq =
      successOutcome exClient exVerify exCallbackReq "ABC" "V1" exOptions :=
  (C7_exchange_result_handling exOptions exClient exVerify exCallbackReq "ABC" "S1" "V1"
    rfl rfl (by decide) rfl (by decide) (by decide) (by decide) (by decide)).2 rfl

/-- C8: on flow start the fresh state–verifier pair accumulates on top of
the store loaded from the incoming request's cookie: every entry of the
incoming snapshot (with a state other than the fresh one) is still
present in the store parsed back out of the Set-Cookie value, and the new
pair is present as well. -/
theorem C8_store_accumulation {U : Type} (o : Options) (client : Client)
    (verify : VerifyOptions → U) (request : Request) (k w : String)
    (herr : truthy (getParam request.query "error") = false)
    (hcode : truthy (getParam request.query "code") = false)
    (hk : k ≠ client.authorizeResult.challenge.state)
    (hmem : (k, w) ∈ (StateStore.fromRequest request (cookieName o)).entries) :
    ∃ r : RedirectResponse,
      authenticate o client verify request = (Outcome.redirect r, []) ∧
      (k, w) ∈ (StateStore.fromCookie r.setCookie.value).entries ∧
      (client.authorizeResult.challenge.state, client.authorizeResult.challenge.verifier)
        ∈ (StateStore.fromCookie r.setCookie.value).entries := by
  refine ⟨_, authenticate_flow_start o client verify request herr hcode, ?_, ?_⟩
  · show (k, w) ∈ (StateStore.fromCookie (StateStore.serialize
      ((StateStore.fromRequest request (cookieName o)).set
        client.authorizeResult.challenge.state
        client.authorizeResult.challenge.verifier))).entries
    rw [StateStore.fromCookie_serialize]
    exact StateStore.mem_of_mem_set hk hmem
  · show (client.authorizeResult.challenge.state, client.authorizeResult.challenge.verifier)
      ∈ (StateStore.fromCookie (StateStore.serialize
        ((StateStore.fromRequest request (cookieName o)).set
          client.authorizeResult.challenge.state
          client.authorizeResult.challenge.verifier))).entries
    rw [StateStore.fromCookie_serialize]
    exact mem_setParam_self _ _ _

/-- Witness for C8: a flow start over a cookie already holding the pair
S0–V0 keeps that pair in the written cookie and adds the fresh S1–V1. -/
theorem C8_witness :
    ∃ r : RedirectResponse,
      authenticate exOptions exClient exVerify exAccumulateReq = (Outcome.redirect r, []) ∧
      ("S0", "V0") ∈ (StateStore.fromCookie r.setCookie.value).entries ∧
      (exClient.authorizeResult.challenge.state, exClient.authorizeResult.challenge.verifier)
        ∈ (StateStore.fromCookie r.setCookie.value).entries :=
  C8_store_accumulation exOptions exClient exVerify exAccumulateReq "S0" "V0"
    rfl rfl (by decide) (by decide)

/-- C9: the default extension hook for extra authorization parameters is
the identity on the query string: the base authorizationParams returns
search parameters equal to its input — so their serialized form is equal
as well — and on flow start the redirect Location's query equals the
query of the URL produced by createAuthorizationURL, unchanged by the
hook. -/
theorem C9_default_params_identity {U : Type} (o : Options) (client : Client)
    (verify : VerifyOptions → U) (params : Params) (req request : Request)
    (herr : truthy (getParam request.query "error") = false)
    (hcode : truthy (getParam request.query "code") = false) :
    authorizationParams params req = params ∧
    serializeEntries (authorizationParams params req) = serializeEntries params ∧
    (∃ r : RedirectResponse,
      authenticate o client verify request = (Outcome.redirect r, []) ∧
      r.location.params = (createAuthorizationURL client).2.params) :=
  ⟨rfl, rfl, ⟨_, authenticate_flow_start o client verify request herr hcode, rfl⟩⟩

/-- Witness for C9 at concrete parameters and the concrete flow-start
request. -/
theorem C9_witness :
    authorizationParams [("a", "1")] exLoginReq = [("a", "1")] ∧
    serializeEntries (authorizationParams [("a", "1")] exLoginReq) =
      serializeEntries [("a", "1")] ∧
    (∃ r : RedirectResponse,
      authenticate exOptions exClient exVerify exLoginReq = (Outcome.redirect r, []) ∧
      r.location.params = (createAuthorizationURL exClient).2.params) :=
  C9_default_params_identity exOptions exClient exVerify [("a", "1")] exLoginReq
    exLoginReq rfl rfl

/-- C10 as stated is false on the code: with a refresh result carrying
neither err nor tokens and a supplied but empty access token, refreshToken
does not return the original pair — the source's truthiness check treats
the empty access token as absent and throws `No tokens returned`. -/
theorem C10_counterexample :
    refreshToken exClient "refresh-token" (some "") =
      Except.error AuthError.noTokensReturned ∧
    refreshToken exClient "refresh-token" (some "") ≠
      Except.ok (Tokens.mk "" "refresh-token") :=
  ⟨rfl, fun h => Except.noConfusion h⟩

/-- C10 amended: refreshToken throws the client's err value whenever the
refresh result carries one; when the client returns neither err nor
tokens it returns the original pair when a non-empty access token was
supplied and otherwise throws `No tokens returned`; and when the client
returns tokens it returns them. -/
theorem C10_refresh_cases (client : Client) (refresh : String) (access : Option String) :
    (∀ e : ClientErr, (client.refreshResult refresh access).err = some e →
      refreshToken client refresh access = Except.error (AuthError.refreshFailed e)) ∧
    ((client.refreshResult refresh access).err = none →
      (client.refreshResult refresh access).tokens = none → truthy access = true →
      refreshToken client refresh access = Except.ok (Tokens.mk (access.getD "") refresh)) ∧
    ((client.refreshResult refresh access).err = none →
      (client.refreshResult refresh access).tokens = none → truthy access = false →
      refreshToken client refresh access = Except.error AuthError.noTokensReturned) ∧
    (∀ t : Tokens, (client.refreshResult refresh access).err = none →
      (client.refreshResult refresh access).tokens = some t →
      refreshToken client refresh access = Except.ok t) := by
  refine ⟨?_, ?_, ?_, ?_⟩
  · intro e he
    unfold refreshToken
    simp [he]
  · intro h1 h2 h3
    unfold refreshToken
    simp [h1, h2, h3]
  · intro h1 h2 h3
    unfold refreshToken
    simp [h1, h2, h3]
  · intro t h1 h2
    unfold refreshToken
    simp [h1, h2]

/-- Witness for the amended C10: a refresh result with neither err nor
tokens and a non-empty access token falls back to the original pair. -/
theorem C10_witness :
    refreshToken exClient "refresh-token" (some "access-token") =
      Except.ok (Tokens.mk "access-token" "refresh-token") :=
  (C10_refresh_cases exClient "refresh-token" (some "access-token")).2.1 rfl rfl rfl

end OpenAuth
